import Mathlib

/-!
Verification of the shinbun incremental Slack-digest pipeline.

This file gives a shallow embedding, in Lean, of the core synchronization and
digest-assembly logic of the repository:

* `categorizeMessage` — the classifier from `internal/slack/slack_client.go`
  (the spec's §4.2 consolidates the two source variants to this one).
* `mergeKept` / `mergeSeen` / `mergeUpdates` — the dedup-merge of freshly
  fetched messages against persisted history (`main.go`, per-channel loop).
* `FormatTimestamp` / `formatTimestamp` / `messageLine` / `assemble` /
  `generateSummaryCore` — the token-budgeted prompt assembly of
  `internal/openai/openai_client.go` (`GenerateSummary`).
* `skipMessage` / `fetchLoop` / `summarizeChannelSlack` — the paginated
  history fetch with rate-limit retry of `internal/slack/slack_client.go`
  (`SummarizeChannel`), driven by a finite script of remote responses.
* `resolveChannel` — channel-name resolution (`getChannelID`).
* `processChannel` — the orchestrator's per-channel body from `main.go`
  (merge, save, watermark update), with external calls given as oracles.

External effects (database, Slack API, OpenAI API, clock) are modelled as
explicit inputs: a finite list of remote responses stands for the paged API,
and `Except`-valued fields stand for the outcomes of single calls.  Functions
are kept executable so that concrete runs can be evaluated inside proofs.
-/

/- ------------------------------------------------------------------ -/
/- Go string primitives, modelled on `List Char`.                      -/
/- ------------------------------------------------------------------ -/

/-- Byte/rune-wise lexicographic comparison of strings (Go `s < t`).
For UTF-8 strings the byte order used by Go coincides with the code-point
order used here. -/
def charsLt : List Char → List Char → Bool
  | [], [] => false
  | [], _ :: _ => true
  | _ :: _, [] => false
  | a :: as, b :: bs => if a < b then true else if b < a then false else charsLt as bs

/-- Go `s < t` on strings. -/
def goStrLt (a b : String) : Bool := charsLt a.data b.data

/-- Does `needle` occur as a contiguous run inside `hay`?  Models Go
`strings.Contains` (for ASCII needles the byte-wise and rune-wise readings
agree). -/
def containsChars (needle : List Char) : List Char → Bool
  | [] => needle.isEmpty
  | c :: rest => needle.isPrefixOf (c :: rest) || containsChars needle rest

/-- Go `strings.Contains s sub`. -/
def containsSubstr (s sub : String) : Bool := containsChars sub.data s.data

/-- Go `strings.ToLower` (ASCII case mapping; the keyword lists the code
compares against are all ASCII). -/
def toLowerGo (s : String) : String := String.mk (s.data.map Char.toLower)

/-- The white-space class used by Go `strings.Fields` / `strings.TrimSpace`
(`unicode.IsSpace`); the common members are modelled. -/
def isGoSpace (c : Char) : Bool :=
  c = ' ' || c = '\t' || c = '\n' || c = '\x0b' || c = '\x0c' || c = '\r'

/-- Split a character list at every character satisfying `p`, keeping empty
segments — the semantics of Go `strings.Split` for one-character separators
and of splitting on a character class. -/
def splitChars (p : Char → Bool) : List Char → List (List Char)
  | [] => [[]]
  | c :: rest =>
    let r := splitChars p rest
    if p c then [] :: r
    else
      match r with
      | [] => [[c]]
      | h :: t => (c :: h) :: t

/-- Go `len(strings.Fields s)`: the number of maximal runs of
non-white-space characters. -/
def fieldsCount (s : String) : Nat :=
  ((splitChars isGoSpace s.data).filter (fun l => !l.isEmpty)).length

/-- Go `strings.TrimSpace`. -/
def trimSpaceGo (s : String) : String :=
  String.mk (((s.data.dropWhile isGoSpace).reverse.dropWhile isGoSpace).reverse)

/-- Go `strconv.ParseInt(s, 10, 64)`: optional sign, at least one decimal
digit, and the value must fit in a signed 64-bit integer. -/
def parseInt64 (s : String) : Option Int :=
  let (sign, digits) : Int × List Char :=
    match s.data with
    | '-' :: rest => (-1, rest)
    | '+' :: rest => (1, rest)
    | l => (1, l)
  if digits.isEmpty then none
  else if digits.all Char.isDigit then
    let n : Int := sign * (digits.foldl (fun a c => a * 10 + (c.toNat - 48)) 0 : Nat)
    if -(2 ^ 63) ≤ n ∧ n < 2 ^ 63 then some n else none
  else none

/-- Left-pad the decimal representation of `n` with zeros to `width`
digits (Go zero-padded format verbs such as `01`, `02`, `2006`). -/
def padNat (width : Nat) (n : Nat) : String :=
  let s := Nat.repr n
  String.mk (List.replicate (width - s.length) '0') ++ s

/-- Proleptic-Gregorian civil date from a day count relative to 1970-01-01
(the standard `civil_from_days` computation, floor-division form; Go's
`time` package computes the same calendar). -/
def civilFromDays (z0 : Int) : Int × Int × Int :=
  let z := z0 + 719468
  let era := Int.fdiv z 146097
  let doe := z - era * 146097
  let yoe := Int.fdiv (doe - Int.fdiv doe 1460 + Int.fdiv doe 36524 - Int.fdiv doe 146096) 365
  let y := yoe + era * 400
  let doy := doe - (365 * yoe + Int.fdiv yoe 4 - Int.fdiv yoe 100)
  let mp := Int.fdiv (5 * doy + 2) 153
  let d := doy - Int.fdiv (153 * mp + 2) 5 + 1
  let m := mp + (if mp < 10 then 3 else -9)
  (y + (if m ≤ 2 then 1 else 0), m, d)

/-- Render a Unix-seconds value in JST (UTC+9, no DST) in Go layout
`2006-01-02 15:04:05 JST` — the output of
`time.Unix(sec, 0).In(jst).Format(...)` in `openai_client.go`. -/
def formatJSTSeconds (sec : Int) : String :=
  let t := sec + 9 * 3600
  let days := Int.fdiv t 86400
  let sod := (t - 86400 * days).toNat
  let ymd := civilFromDays days
  let yearStr :=
    if ymd.1 < 0 then "-" ++ padNat 4 ymd.1.natAbs else padNat 4 ymd.1.toNat
  yearStr ++ "-" ++ padNat 2 ymd.2.1.toNat ++ "-" ++ padNat 2 ymd.2.2.toNat ++
    " " ++ padNat 2 (sod / 3600) ++ ":" ++ padNat 2 (sod % 3600 / 60) ++ ":" ++
    padNat 2 (sod % 60) ++ " JST"

/- ------------------------------------------------------------------ -/
/- Data model: `Update` (internal/commontypes).                        -/
/- ------------------------------------------------------------------ -/

/-- One message update, as in `internal/commontypes` / `main.go`. -/
structure Update where
  Text : String
  Timestamp : String
  Link : String
  Channel : String
  Category : String
  Priority : Int
deriving Repr, DecidableEq

/- ------------------------------------------------------------------ -/
/- Classifier (`categorizeMessage`, internal/slack/slack_client.go).   -/
/- ------------------------------------------------------------------ -/

/-- `alertKeywords` from `slack_client.go` (note: the source's `" outage"`
entry carries a leading space). -/
def alertKeywords : List String :=
  ["alert", "incident", "down", " outage", "critical", "p0", "sev0", "sev1"]

/-- `supportKeywords` from `slack_client.go`. -/
def supportKeywords : List String :=
  ["support request", "customer issue", "ticket", "bug report", "need help", "assistance"]

/-- `highPriorityKeywords` from `slack_client.go`. -/
def highPriorityKeywords : List String :=
  ["urgent", "asap", "blocker", "immediately"]

/-- The first pass of `categorizeMessage`: priority defaults to 1 and is
raised to 3 when any high-priority keyword occurs in the lowered text. -/
def textPriority (lowerText : String) : Int :=
  if highPriorityKeywords.any (fun k => containsSubstr lowerText k) then 3 else 1

/-- `categorizeMessage` from `internal/slack/slack_client.go` (the variant
the spec's §4.2/§9 designate as the Classifier): alert keywords first, then
channel-name support context, then support keywords, else general. -/
def categorizeMessage (channelName text : String) : String × Int :=
  let lowerText := toLowerGo text
  let lowerChannelName := toLowerGo channelName
  let priority := textPriority lowerText
  if alertKeywords.any (fun k => containsSubstr lowerText k) then
    ("alert", if priority < 3 then 3 else priority)
  else if containsSubstr lowerChannelName "support" ||
      containsSubstr lowerChannelName "customer" ||
      containsSubstr lowerChannelName "help" then
    if supportKeywords.any (fun k => containsSubstr lowerText k) then
      ("support", if priority < 2 then 2 else priority)
    else
      ("support", if priority < 2 then 2 else priority)
  else if supportKeywords.any (fun k => containsSubstr lowerText k) then
    ("support", if priority < 2 then 2 else priority)
  else
    ("general", priority)

/- ------------------------------------------------------------------ -/
/- Deduplicator/Merger (`main.go` lines 869-884).                      -/
/- ------------------------------------------------------------------ -/

/-- One pass of the merge loop in `main.go`: walk `incoming`, appending each
update whose `Timestamp` key is not yet in `seen`; returns the kept updates.
`seen` models the `seenMessages` map. -/
def mergeKept : List Update → List String → List Update
  | [], _ => []
  | u :: rest, seen =>
    if u.Timestamp ∈ seen then mergeKept rest seen
    else u :: mergeKept rest (u.Timestamp :: seen)

/-- The `seen` key set after one pass of the merge loop. -/
def mergeSeen : List Update → List String → List String
  | [], seen => seen
  | u :: rest, seen =>
    if u.Timestamp ∈ seen then mergeSeen rest seen
    else mergeSeen rest (u.Timestamp :: seen)

/-- The dedup-merge of `main.go`: fresh (`slackUpdates`) first, then
persisted (`dbUpdates`) filtered through the same `seenMessages` set. -/
def mergeUpdates (slackUpdates dbUpdates : List Update) : List Update :=
  mergeKept slackUpdates [] ++ mergeKept dbUpdates (mergeSeen slackUpdates [])

/- ------------------------------------------------------------------ -/
/- Prompt assembly (internal/openai/openai_client.go).                 -/
/- ------------------------------------------------------------------ -/

/-- `maxPromptLength` from `openai_client.go`. -/
def maxPromptLength : Nat := 3800

/-- `FormatTimestamp` (exported) from `openai_client.go`: `sec.usec` split
on the dot, exactly two parts; seconds via `ParseInt`; the fractional part
truncated/right-padded to six digits, parse failures falling back to zero,
scaled to nanoseconds.  Returns the `(seconds, nanoseconds)` pair of the
resulting `time.Time`. -/
def FormatTimestamp (timestamp : String) : Option (Int × Int) :=
  match splitChars (fun c => c = '.') timestamp.data with
  | [p0, p1] =>
    match parseInt64 (String.mk p0) with
    | none => none
    | some sec =>
      let nsec :=
        if p1.length > 0 then
          let nsecStr := p1.take 6 ++ List.replicate (6 - p1.length) '0'
          (match parseInt64 (String.mk nsecStr) with
           | some v => v
           | none => 0) * 1000
        else 0
      some (sec, nsec)
  | _ => none

/-- `time.Time.Before` on the wall-clock `(seconds, nanoseconds)` pairs
produced by `FormatTimestamp`. -/
def timeBefore (a b : Int × Int) : Bool :=
  decide (a.1 < b.1) || (decide (a.1 = b.1) && decide (a.2 < b.2))

/-- `formatTimestamp` (unexported) from `openai_client.go`: keeps only the
seconds part before the first dot and renders it in JST; fails when the
seconds do not parse. -/
def formatTimestamp (slackTs : String) : Option String :=
  match splitChars (fun c => c = '.') slackTs.data with
  | [] => none
  | p0 :: _ =>
    match parseInt64 (String.mk p0) with
    | none => none
    | some sec => some (formatJSTSeconds sec)

/-- `formatMessage` (unexported) from `openai_client.go`. -/
def formatMessageOpenai (text : String) : String := trimSpaceGo text

/-- One rendered message line of the prompt:
`"[%s] #%s: %s Link: <%s|View Message>\n"`. -/
def messageLine (formattedTime : String) (u : Update) : String :=
  "[" ++ formattedTime ++ "] #" ++ u.Channel ++ ": " ++
    formatMessageOpenai u.Text ++ " Link: <" ++ u.Link ++ "|View Message>\n"

/-- The comparison closure handed to `sort.SliceStable` in `GenerateSummary`:
priority ascending, then parsed timestamp ascending, falling back to the raw
string comparison when either timestamp fails to parse. -/
def updLess (a b : Update) : Bool :=
  if a.Priority ≠ b.Priority then decide (a.Priority < b.Priority)
  else
    match FormatTimestamp a.Timestamp, FormatTimestamp b.Timestamp with
    | some ta, some tb => timeBefore ta tb
    | _, _ => goStrLt a.Timestamp b.Timestamp

/-- Insert `x` into `l` after every element `y` with `less y x` — the
insertion step of a stable sort. -/
def stableInsert (less : α → α → Bool) (x : α) : List α → List α
  | [] => [x]
  | y :: ys => if less y x then y :: stableInsert less x ys else x :: y :: ys

/-- A stable sort with respect to a boolean comparison — the behaviour of
Go `sort.SliceStable`. -/
def stableSort (less : α → α → Bool) : List α → List α
  | [] => []
  | x :: xs => stableInsert less x (stableSort less xs)

/-- The canonical order of `GenerateSummary`: `sort.SliceStable` under
`updLess`. -/
def sortCanonical (updates : List Update) : List Update :=
  stableSort updLess updates

/-- The outcome of one rendering pass over the (index-annotated, reversed)
sorted list: the accumulated message block, the final running token count,
and — for the statements below — the positions (in the sorted list) of the
included messages, of the messages cut off once the budget was reached, and
of the messages skipped because their timestamp failed to format. -/
structure AssembleResult where
  text : String
  tokens : Nat
  included : List Nat
  budgetDropped : List Nat
  formatDropped : List Nat
deriving Repr, DecidableEq

/-- The message-inclusion loop of `GenerateSummary` (`for i := len-1; i >= 0;
i--`): newest/highest-priority end first; skip on timestamp-format failure;
stop at the first line that would push the running whitespace-word count over
the budget.  The `included`/`budgetDropped`/`formatDropped` index lists are
bookkeeping for the theorems and do not alter the computation. -/
def assembleAux (budget : Nat) : List (Nat × Update) → Nat → AssembleResult
  | [], cur => ⟨"", cur, [], [], []⟩
  | (i, u) :: rest, cur =>
    match formatTimestamp u.Timestamp with
    | none =>
      let st := assembleAux budget rest cur
      { st with formatDropped := i :: st.formatDropped }
    | some ft =>
      let line := messageLine ft u
      let lineTokens := fieldsCount line
      if budget < cur + lineTokens then
        ⟨"", cur, [], ((i, u) :: rest).map Prod.fst, []⟩
      else
        let st := assembleAux budget rest (cur + lineTokens)
        { st with text := line ++ st.text, included := i :: st.included }

/-- Run the inclusion loop over a sorted list `s`, indices attached, from the
newest end. -/
def assemble (budget : Nat) (s : List Update) : AssembleResult :=
  assembleAux budget s.enum.reverse 0

/-- The fixed system message of `GenerateSummary`. -/
def openaiSystemMessage : String := "You summarize Slack messages into markdown digests."

/-- The support-focus prompt template of `openai_client.go`, up to the
`CurrentTime` insertion point. -/
def supportPromptPre : String :=
  "Summarize the following support-related messages. Structure the summary into these sections:\n\n1.  **Critical/Urgent Issues:** Bullet points for any urgent matters needing immediate attention.\n2.  **New Support Requests:** Briefly list new issues raised.\n3.  **Updates & Resolutions:** Summarize progress on ongoing issues or confirmed resolutions.\n4.  **Statistics:** Provide a brief statistical overview including: the total number of requests/messages summarized, a breakdown of request types (if possible), components frequently mentioned, and teams involved/mentioned.\n\nIMPORTANT: Each message below includes a \"Link:\" field containing the exact Slack message URL. When referencing messages, MUST use these exact URLs in markdown links: [Description](exact-slack-url).\n\nUse a professional and direct tone. Focus on actionable information.\n\nCurrent time for context: "

/-- The support-focus template between `CurrentTime` and `Messages`. -/
def supportPromptMid : String := ".\n\nMessages:\n"

/-- The default (newspaper-style) prompt template, up to the `CurrentTime`
insertion point. -/
def defaultPromptPre : String :=
  "You are an assistant that is providing me with important updates and information. You are going to give me key information for the week prior. I like my information presented\nlike a newspaper, with key information at the top, important highlights, and any urgent topics clearly called out. The remaining information should\nbe presented as a short summary with key highlights or takeaways that I should be aware of.\n\nEach message includes a timestamp in JST (Japan Standard Time). Use these timestamps to provide accurate timing information in your summary.\nFor example, if a message is from \"2025-02-01 14:30:00 JST\", say \"yesterday at 2:30 PM\" or \"on February 1st\" as appropriate.\nThe current time is "

/-- The default template between `CurrentTime` and `Messages`. -/
def defaultPromptMid : String :=
  ".\n\nStructure the summary in the following sections:\n\n1. \"Top highlights\" - 3-5 bullet points of the most important items, with links to the relevant Slack messages.\n2. \"Urgent Incidents and Support Issues\" - Bullet points of major support issues and incidents, with links to the relevant Slack message. Include any data in the information like when the incident started.\n3. \"General Updates\" - Group and summarize other interesting topics and announcements, provide any takeaways.\n4. \"Support and Incident Summary\" - Provide an overview of support requests and incidents, provide any takeaways and identify any follow up actions that I need.\n\nIMPORTANT: Each message below includes a \"Link:\" field containing the exact Slack message URL. When referencing messages in your summary, you MUST use these exact URLs in your markdown links. Do not modify the URLs or use placeholders. Format your links as [description](url)\n\nAfter you create your summary, review the above context to make sure the summary meets those expectations both in terms of format and content. \nAlso you need to double-check that the links to the slack message are correct and working links. They should be exactly the link provided in the \x27Link:\x27 field.\n\nAs for the tone, I want you to sound cheery and bright. Make it happy and fun to read with little jokes and fun comments.\n\nMessages to summarize:\n"

/-- The default template after the `Messages` insertion point. -/
def defaultPromptPost : String :=
  "\n\nPlease summarize these messages, making sure to use the exact Slack message URLs provided in the Link: fields above."

/-- Template selection and execution: the parsed `text/template` applied to
`(CurrentTime, Messages)` is, for these fixed templates, exactly this
concatenation; unknown focus values take the default template. -/
def buildPrompt (focus now messages : String) : String :=
  if focus = "support" then supportPromptPre ++ now ++ supportPromptMid ++ messages
  else defaultPromptPre ++ now ++ defaultPromptMid ++ messages ++ defaultPromptPost

/-- The observable outcome of `GenerateSummary` up to the external OpenAI
call: either an early return with a fixed text and nil error (`done`), or a
`(systemMessage, userPrompt)` pair handed to the chat-completion client. -/
inductive GSOutcome
  | done (text : String)
  | send (system user : String)
deriving Repr, DecidableEq

/-- `GenerateSummary` from `openai_client.go`, with the wall clock passed in
as the pre-rendered `now` string: the empty-input early return, the stable
sort, the budgeted message loop, the nothing-renderable early return, and
otherwise the prompt handed to the model. -/
def generateSummaryCore (updates : List Update) (focus now : String) : GSOutcome :=
  if updates.isEmpty then
    .done "No new updates found."
  else
    let st := assemble maxPromptLength (sortCanonical updates)
    if st.text = "" then
      .done "No processable messages found within token limits."
    else
      .send openaiSystemMessage (buildPrompt focus now st.text)

/- ------------------------------------------------------------------ -/
/- History fetch (`SummarizeChannel`, internal/slack/slack_client.go). -/
/- ------------------------------------------------------------------ -/

/-- One raw message of a history page, with the outcome of its
`GetPermalink` call attached as an oracle (`none` = the call failed). -/
structure RawMsg where
  botID : String
  subType : String
  threadTimestamp : String
  timestamp : String
  text : String
  permalinkResult : Option String
deriving Repr, DecidableEq

/-- The two skip checks at the top of the message loop in
`SummarizeChannel`: `msg.BotID != "" || msg.SubType != ""`, then
`msg.ThreadTimestamp != "" && msg.SubType != "thread_broadcast"`.  A message
is dropped when either fires. -/
def skipMessage (m : RawMsg) : Bool :=
  (m.botID != "" || m.subType != "") ||
    (m.threadTimestamp != "" && m.subType != "thread_broadcast")

/-- Modelled from the spec: §4.3 — skip a message iff it originates from an
automated/system sender, or carries a non-primary subtype, or is a thread
reply that is not also broadcast to the channel; a `thread_broadcast` reply
is kept.  (Stated here only to compare with `skipMessage` above.) -/
def specSkipMessage (m : RawMsg) : Bool :=
  m.botID != "" ||
    (m.subType != "" && m.subType != "thread_broadcast") ||
    (m.threadTimestamp != "" && m.subType != "thread_broadcast")

/-- Go `strings.Replace(ts, ".", "", 1)`. -/
def removeFirstDot : List Char → List Char
  | [] => []
  | c :: rest => if c = '.' then rest else c :: removeFirstDot rest

/-- Build the `Update` emitted for one kept raw message: permalink from the
oracle, or the deterministic fallback link from channel id + timestamp;
category and priority from the classifier. -/
def mkUpdate (channelName channelSlackID : String) (m : RawMsg) : Update :=
  let link :=
    match m.permalinkResult with
    | some l => l
    | none =>
      "https://slack.com/archives/" ++ channelSlackID ++ "/p" ++
        String.mk (removeFirstDot m.timestamp.data)
  let cp := categorizeMessage channelName m.text
  { Text := m.text, Timestamp := m.timestamp, Link := link,
    Channel := channelName, Category := cp.1, Priority := cp.2 }

/-- Process one history page: drop skipped messages, emit Updates. -/
def processPage (channelName channelSlackID : String) (msgs : List RawMsg) : List Update :=
  (msgs.filter (fun m => !skipMessage m)).map (mkUpdate channelName channelSlackID)

/-- One response of the remote history endpoint, as consumed by a single
`GetConversationHistory` call: a page, or one of the error classes the code
distinguishes (`channel_not_found`, `ratelimited`, anything else). -/
inductive ApiResponse
  | page (messages : List RawMsg) (hasMore : Bool) (nextCursor : String)
  | errNotFound
  | errRateLimited
  | errOther
deriving Repr, DecidableEq

/-- The error taxonomy surfaced by the fetch: `notFound` is the spec's
PermissionOrMissing, `transport` its Transport; `rateLimited` exists in the
taxonomy but, per the code, is absorbed by retry and never returned. -/
inductive FetchError
  | notFound
  | rateLimited
  | transport
deriving Repr, DecidableEq

/-- The pagination loop of `SummarizeChannel`, driven by a finite script of
remote responses (each request consumes the next entry).  A rate-limit
response sleeps and retries with the same cursor; `channel_not_found` and
other transport errors abort; a page with `!hasMore` or an empty next cursor
ends the loop.  `none` means the script ran out while the loop still wanted
another page. -/
def fetchLoop (channelName channelSlackID : String) :
    List ApiResponse → String → List Update → Option (Except FetchError (List Update))
  | [], _, _ => none
  | .errNotFound :: _, _, _ => some (.error .notFound)
  | .errRateLimited :: rest, cursor, acc =>
    fetchLoop channelName channelSlackID rest cursor acc
  | .errOther :: _, _, _ => some (.error .transport)
  | .page msgs hasMore nextCursor :: rest, _, acc =>
    let acc2 := acc ++ processPage channelName channelSlackID msgs
    if !hasMore || nextCursor = "" then some (.ok acc2)
    else fetchLoop channelName channelSlackID rest nextCursor acc2

/-- The cursor attached to each request the loop issues (one entry per
consumed script response, in order). -/
def requestCursors : List ApiResponse → String → List String
  | [], _ => []
  | .errNotFound :: _, cursor => [cursor]
  | .errRateLimited :: rest, cursor => cursor :: requestCursors rest cursor
  | .errOther :: _, cursor => [cursor]
  | .page _ hasMore nextCursor :: rest, cursor =>
    if !hasMore || nextCursor = "" then [cursor]
    else cursor :: requestCursors rest nextCursor

/-- Actions against the persistent store that the claims observe. -/
inductive StoreAction
  | savedMessage (timestamp : String)
  | updatedWatermark
deriving Repr, DecidableEq

/-- `SummarizeChannel` around the loop: on success the last-fetch watermark
update is invoked (even for zero messages); on a fetch error the function
returns before reaching it. -/
def summarizeChannelSlack (channelName channelSlackID : String)
    (script : List ApiResponse) :
    Option (Except FetchError (List Update)) × List StoreAction :=
  match fetchLoop channelName channelSlackID script "" [] with
  | some (.ok ups) => (some (.ok ups), [.updatedWatermark])
  | some (.error e) => (some (.error e), [])
  | none => (none, [])

/- ------------------------------------------------------------------ -/
/- Channel resolution (`getChannelID`, internal/slack/slack_client.go). -/
/- ------------------------------------------------------------------ -/

/-- Outcome of the cache lookup `SELECT id, slack_id FROM channels WHERE
name = $1`: a row, no row, or a query error. -/
inductive DBLookup
  | found (id : Int) (slackID : String)
  | noRows
  | err
deriving Repr, DecidableEq

/-- One `GetConversations` response: a page of `(name, id)` channels plus
the next cursor, or an API error. -/
inductive ConvPage
  | page (channels : List (String × String)) (nextCursor : String)
  | errApi
deriving Repr, DecidableEq

/-- Resolver error taxonomy: cache query failure, directory call failure,
and name not present in any page. -/
inductive ResolveError
  | dbErr
  | apiErr
  | notFound
deriving Repr, DecidableEq

/-- The oracle environment of one `getChannelID` call. -/
structure ResolveEnv where
  dbPresent : Bool
  lookup : DBLookup
  pages : List ConvPage
  upsert : Except Unit Int

/-- Case-sensitive exact-name scan of one directory page. -/
def findInPage (name : String) : List (String × String) → Option String
  | [] => none
  | (n, id) :: rest => if n = name then some id else findInPage name rest

/-- The directory-paging loop of `getChannelID`: stop with the id on the
first match, stop without one when a page's next cursor is empty (an
exhausted script is read the same way), fail on an API error. -/
def scanPages (name : String) : List ConvPage → Except ResolveError (Option String)
  | [] => .ok none
  | .errApi :: _ => .error .apiErr
  | .page channels nextCursor :: rest =>
    match findInPage name channels with
    | some id => .ok (some id)
    | none => if nextCursor = "" then .ok none else scanPages name rest

/-- The remote half of `getChannelID`: scan the directory; on a match upsert
the mapping — a failed upsert is logged and degraded to returning the remote
id with the sentinel local id 0 and no error. -/
def resolveRemote (env : ResolveEnv) (name : String) : Except ResolveError (String × Int) :=
  match scanPages name env.pages with
  | .error e => .error e
  | .ok none => .error .notFound
  | .ok (some slackID) =>
    if env.dbPresent then
      match env.upsert with
      | .error _ => .ok (slackID, 0)
      | .ok id => .ok (slackID, id)
    else .ok (slackID, 0)

/-- `getChannelID` from `internal/slack/slack_client.go`: cache first (when
a database is present), then the remote directory. -/
def resolveChannel (env : ResolveEnv) (name : String) : Except ResolveError (String × Int) :=
  if env.dbPresent then
    match env.lookup with
    | .found id slackID => .ok (slackID, id)
    | .err => .error .dbErr
    | .noRows => resolveRemote env name
  else resolveRemote env name

/- ------------------------------------------------------------------ -/
/- Orchestrator per-channel body (`main.go` lines 821-918).            -/
/- ------------------------------------------------------------------ -/

/-- The oracle outcomes of the external calls made for one channel in one
run of `main`: channel-id resolution, the fetch pass (`summarizeChannel`),
the trailing-window database query, and the per-message save results.  The
`since` selection between `--from-date` and the stored watermark only feeds
the fetch and is absorbed into the `fetch` outcome. -/
structure ChanEnv where
  resolve : Except Unit (String × Int)
  fetch : Except FetchError (List Update)
  dbQuery : Except Unit (List Update)
  saveOk : Update → Bool

/-- The per-channel body of the orchestrator loop in `main.go`: any failure
of resolution, fetch, or the database query skips the channel; otherwise
merge fresh with persisted, save each fetched message (failures are logged
and skipped), and invoke the watermark update only when `messagesSaved > 0`.
Returns the persistence actions performed and the updates contributed to the
digest. -/
def processChannel (env : ChanEnv) : List StoreAction × List Update :=
  match env.resolve with
  | .error _ => ([], [])
  | .ok _ =>
    match env.fetch with
    | .error _ => ([], [])
    | .ok slackUpdates =>
      match env.dbQuery with
      | .error _ => ([], [])
      | .ok dbUpdates =>
        let updates := mergeUpdates slackUpdates dbUpdates
        let saved := slackUpdates.filter env.saveOk
        let actions :=
          saved.map (fun u => StoreAction.savedMessage u.Timestamp) ++
            (if saved.length > 0 then [StoreAction.updatedWatermark] else [])
        (actions, updates)

/- ------------------------------------------------------------------ -/
/- Concrete fixtures used by witnesses and counterexamples.            -/
/- ------------------------------------------------------------------ -/

deriving instance DecidableEq for Except

/-- Shorthand for a sample update. -/
def mkSample (p : Int) (ts txt : String) : Update :=
  { Text := txt, Timestamp := ts, Link := "https://slack.com/archives/C1/p1",
    Channel := "general", Category := "general", Priority := p }

/-- The fresh side of the spec §8 merge scenario (first two share a key). -/
def mergeFreshSample : List Update :=
  [mkSample 1 "100.001" "a", mkSample 1 "100.001" "b", mkSample 1 "200.000" "c"]

/-- The persisted side of the spec §8 merge scenario. -/
def mergePersistedSample : List Update :=
  [mkSample 1 "200.000" "d", mkSample 1 "50.000" "e"]

/-- Three updates for the prompt-assembly run: a low-priority message, a
medium one, and a high-priority one whose timestamp does not parse. -/
def assembleSample : List Update :=
  [mkSample 2 "1.000000" "t", mkSample 1 "0.000000" "t", mkSample 3 "bad-ts" "t"]

/-- A one-element update list whose only timestamp fails to format. -/
def unparsableSample : List Update := [mkSample 1 "bad-ts" "hello"]

/-- A per-channel oracle whose fetch pass fails with a transport error. -/
def chanEnvFetchErr : ChanEnv :=
  { resolve := .ok ("C1", 1), fetch := .error .transport,
    dbQuery := .ok [mkSample 1 "50.000" "old"], saveOk := fun _ => true }

/-- A fully successful run whose fetch pass returns zero messages. -/
def chanEnvZeroFetch : ChanEnv :=
  { resolve := .ok ("C1", 1), fetch := .ok [],
    dbQuery := .ok [mkSample 1 "50.000" "old"], saveOk := fun _ => true }

/-- A second zero-message successful run (different oracle outcomes). -/
def chanEnvZeroFetchAlt : ChanEnv :=
  { resolve := .ok ("C2", 2), fetch := .ok [],
    dbQuery := .ok [], saveOk := fun _ => false }

/-- A remote script: one rate-limit response, then a final empty page. -/
def rateLimitScript : List ApiResponse :=
  [.errRateLimited, .page [] false ""]

/-- The spec §8 resolver scenario: cache miss, match on page 2, failing
upsert. -/
def resolveEnvSample : ResolveEnv :=
  { dbPresent := true, lookup := .noRows,
    pages := [.page [("random", "C9")] "cursor1", .page [("support-tier1", "C42")] ""],
    upsert := .error () }

/-- A thread reply that is also broadcast to the channel
(`subtype = "thread_broadcast"`), from a human sender. -/
def broadcastReply : RawMsg :=
  { botID := "", subType := "thread_broadcast",
    threadTimestamp := "1700000000.000100", timestamp := "1700000050.000200",
    text := "deploy finished", permalinkResult := none }

/- ------------------------------------------------------------------ -/
/- Theorems: Deduplicator/Merger (C1).                                 -/
/- ------------------------------------------------------------------ -/

theorem mem_of_mem_mergeKept (l : List Update) :
    ∀ (seen : List String) (u : Update), u ∈ mergeKept l seen → u ∈ l := by
  induction l with
  | nil => intro seen u h; simp [mergeKept] at h
  | cons v rest ih =>
    intro seen u h
    by_cases hv : v.Timestamp ∈ seen
    · simp only [mergeKept, if_pos hv] at h
      exact List.mem_cons_of_mem _ (ih seen u h)
    · simp only [mergeKept, if_neg hv, List.mem_cons] at h
      rcases h with h | h
      · exact h ▸ List.mem_cons_self _ _
      · exact List.mem_cons_of_mem _ (ih _ u h)

theorem timestamp_notMem_seen_of_mem_mergeKept (l : List Update) :
    ∀ (seen : List String) (u : Update), u ∈ mergeKept l seen → u.Timestamp ∉ seen := by
  induction l with
  | nil => intro seen u h; simp [mergeKept] at h
  | cons v rest ih =>
    intro seen u h
    by_cases hv : v.Timestamp ∈ seen
    · simp only [mergeKept, if_pos hv] at h
      exact ih seen u h
    · simp only [mergeKept, if_neg hv, List.mem_cons] at h
      rcases h with h | h
      · exact h ▸ hv
      · intro hmem
        exact ih _ u h (List.mem_cons_of_mem _ hmem)

theorem nodup_timestamps_mergeKept (l : List Update) :
    ∀ (seen : List String), ((mergeKept l seen).map (fun u => u.Timestamp)).Nodup := by
  induction l with
  | nil => intro seen; simp [mergeKept]
  | cons v rest ih =>
    intro seen
    by_cases hv : v.Timestamp ∈ seen
    · simpa only [mergeKept, if_pos hv] using ih seen
    · simp only [mergeKept, if_neg hv, List.map_cons, List.nodup_cons]
      refine ⟨?_, ih _⟩
      intro hmem
      rcases List.mem_map.mp hmem with ⟨w, hw, hts⟩
      exact timestamp_notMem_seen_of_mem_mergeKept rest _ w hw
        (hts ▸ List.mem_cons_self _ _)

theorem mem_mergeSeen_of_mem_seen (l : List Update) :
    ∀ (seen : List String) (t : String), t ∈ seen → t ∈ mergeSeen l seen := by
  induction l with
  | nil => intro seen t h; simpa [mergeSeen] using h
  | cons v rest ih =>
    intro seen t h
    by_cases hv : v.Timestamp ∈ seen
    · simpa only [mergeSeen, if_pos hv] using ih seen t h
    · simp only [mergeSeen, if_neg hv]
      exact ih _ t (List.mem_cons_of_mem _ h)

theorem mem_mergeSeen_of_mem_list (l : List Update) :
    ∀ (seen : List String) (u : Update), u ∈ l → u.Timestamp ∈ mergeSeen l seen := by
  induction l with
  | nil => intro seen u h; simp at h
  | cons v rest ih =>
    intro seen u h
    rcases List.mem_cons.mp h with h | h
    · by_cases hv : v.Timestamp ∈ seen
      · simp only [mergeSeen, if_pos hv]
        exact mem_mergeSeen_of_mem_seen rest seen _ (h ▸ hv)
      · simp only [mergeSeen, if_neg hv]
        exact mem_mergeSeen_of_mem_seen rest _ _ (h ▸ List.mem_cons_self _ _)
    · by_cases hv : v.Timestamp ∈ seen
      · simp only [mergeSeen, if_pos hv]
        exact ih seen u h
      · simp only [mergeSeen, if_neg hv]
        exact ih _ u h

theorem exists_mergeKept_of_mem (l : List Update) :
    ∀ (seen : List String) (u : Update), u ∈ l → u.Timestamp ∉ seen →
      ∃ v ∈ mergeKept l seen, v.Timestamp = u.Timestamp := by
  induction l with
  | nil => intro seen u h; simp at h
  | cons v rest ih =>
    intro seen u h hns
    rcases List.mem_cons.mp h with h | h
    · subst h
      rw [mergeKept, if_neg hns]
      exact ⟨u, List.mem_cons_self _ _, rfl⟩
    · by_cases hv : v.Timestamp ∈ seen
      · rw [mergeKept, if_pos hv]
        exact ih seen u h hns
      · rw [mergeKept, if_neg hv]
        by_cases hts : u.Timestamp = v.Timestamp
        · exact ⟨v, List.mem_cons_self _ _, hts.symm⟩
        · rcases ih (v.Timestamp :: seen) u h
              (by simp [List.mem_cons, hts, hns]) with ⟨w, hw, hwts⟩
          exact ⟨w, List.mem_cons_of_mem _ hw, hwts⟩

/-- C1: `merge(fresh, persisted)` — the per-channel dedup step of `main.go`
(fresh messages iterated first, each `Timestamp` key marked seen and
appended; persisted messages appended only when unseen) — yields each
`Timestamp` at most once, and for any key occurring in both inputs, the
retained element with that key is a fresh one (every element of the result
carrying such a key comes from the fresh list, and one exists). -/
theorem merge_dedup_fresh_precedence (fresh persisted : List Update) :
    ((mergeUpdates fresh persisted).map (fun u => u.Timestamp)).Nodup ∧
    ∀ t : String, (∃ u ∈ fresh, u.Timestamp = t) → (∃ u ∈ persisted, u.Timestamp = t) →
      (∃ u ∈ mergeUpdates fresh persisted, u.Timestamp = t ∧ u ∈ fresh) ∧
      ∀ u ∈ mergeUpdates fresh persisted, u.Timestamp = t → u ∈ fresh := by
  constructor
  · unfold mergeUpdates
    rw [List.map_append, List.nodup_append]
    refine ⟨nodup_timestamps_mergeKept fresh [], nodup_timestamps_mergeKept persisted _, ?_⟩
    intro t h1 h2
    rcases List.mem_map.mp h1 with ⟨u, hu, hut⟩
    rcases List.mem_map.mp h2 with ⟨w, hw, hwt⟩
    have hseen : t ∈ mergeSeen fresh [] :=
      hut ▸ mem_mergeSeen_of_mem_list fresh [] u (mem_of_mem_mergeKept fresh [] u hu)
    exact timestamp_notMem_seen_of_mem_mergeKept persisted _ w hw (hwt ▸ hseen)
  · intro t hf _hp
    rcases hf with ⟨u, hu, hut⟩
    constructor
    · rcases exists_mergeKept_of_mem fresh [] u hu (by simp) with ⟨v, hv, hvts⟩
      refine ⟨v, List.mem_append_left _ hv, hvts.trans hut, mem_of_mem_mergeKept fresh [] v hv⟩
    · intro w hw hwt
      rcases List.mem_append.mp hw with hw | hw
      · exact mem_of_mem_mergeKept fresh [] w hw
      · exfalso
        have hseen : t ∈ mergeSeen fresh [] :=
          hut ▸ mem_mergeSeen_of_mem_list fresh [] u hu
        exact timestamp_notMem_seen_of_mem_mergeKept persisted _ w hw (hwt ▸ hseen)

/-- C1 witness: the spec §8 scenario — fresh timestamps
`["100.001","100.001","200.000"]`, persisted `["200.000","50.000"]`; the
merged timestamps are duplicate-free and the `"200.000"` entry comes from
the fresh list. -/
theorem merge_dedup_fresh_precedence_witness :
    ((mergeUpdates mergeFreshSample mergePersistedSample).map (fun u => u.Timestamp)).Nodup ∧
    ∃ u ∈ mergeUpdates mergeFreshSample mergePersistedSample,
      u.Timestamp = "200.000" ∧ u ∈ mergeFreshSample :=
  ⟨(merge_dedup_fresh_precedence mergeFreshSample mergePersistedSample).1,
    ((merge_dedup_fresh_precedence mergeFreshSample mergePersistedSample).2 "200.000"
      (by decide) (by decide)).1⟩

/- ------------------------------------------------------------------ -/
/- Theorems: prompt assembly (C2, C9, C10).                            -/
/- ------------------------------------------------------------------ -/

theorem mem_stableInsert (less : α → α → Bool) (x a : α) :
    ∀ (l : List α), a ∈ stableInsert less x l ↔ a = x ∨ a ∈ l := by
  intro l
  induction l with
  | nil => simp [stableInsert]
  | cons y ys ih =>
    by_cases hy : less y x
    · simp only [stableInsert, if_pos hy, List.mem_cons, ih]
      tauto
    · simp only [stableInsert, if_neg hy, List.mem_cons]

theorem mem_stableSort (less : α → α → Bool) (a : α) :
    ∀ (l : List α), a ∈ stableSort less l ↔ a ∈ l := by
  intro l
  induction l with
  | nil => simp [stableSort]
  | cons x xs ih =>
    simp only [stableSort, mem_stableInsert, List.mem_cons, ih]

theorem assembleAux_tokens_le (budget : Nat) :
    ∀ (l : List (Nat × Update)) (cur : Nat), cur ≤ budget →
      (assembleAux budget l cur).tokens ≤ budget := by
  intro l
  induction l with
  | nil => intro cur h; simpa [assembleAux] using h
  | cons head rest ih =>
    intro cur h
    obtain ⟨i, u⟩ := head
    cases hft : formatTimestamp u.Timestamp with
    | none => simpa only [assembleAux, hft] using ih cur h
    | some ft =>
      by_cases hb : budget < cur + fieldsCount (messageLine ft u)
      · simpa only [assembleAux, hft, if_pos hb] using h
      · simpa only [assembleAux, hft, if_neg hb] using
          ih (cur + fieldsCount (messageLine ft u)) (Nat.le_of_not_lt hb)

theorem assembleAux_budgetDropped_subset (budget : Nat) :
    ∀ (l : List (Nat × Update)) (cur : Nat),
      ∀ b ∈ (assembleAux budget l cur).budgetDropped, b ∈ l.map Prod.fst := by
  intro l
  induction l with
  | nil => intro cur b hb; simp [assembleAux] at hb
  | cons head rest ih =>
    intro cur b hb
    obtain ⟨i, u⟩ := head
    cases hft : formatTimestamp u.Timestamp with
    | none =>
      simp only [assembleAux, hft] at hb
      exact List.mem_cons_of_mem _ (ih cur b hb)
    | some ft =>
      by_cases hbudget : budget < cur + fieldsCount (messageLine ft u)
      · simp only [assembleAux, hft, if_pos hbudget] at hb
        simpa using hb
      · simp only [assembleAux, hft, if_neg hbudget] at hb
        exact List.mem_cons_of_mem _ (ih _ b hb)

theorem assembleAux_drop_before_include (budget : Nat) :
    ∀ (l : List (Nat × Update)) (cur : Nat),
      (l.map Prod.fst).Pairwise (fun a b => b < a) →
      ∀ b ∈ (assembleAux budget l cur).budgetDropped,
        ∀ i ∈ (assembleAux budget l cur).included, b < i := by
  intro l
  induction l with
  | nil => intro cur _ b hb; simp [assembleAux] at hb
  | cons head rest ih =>
    intro cur hp b hb j hj
    obtain ⟨i, u⟩ := head
    simp only [List.map_cons, List.pairwise_cons] at hp
    cases hft : formatTimestamp u.Timestamp with
    | none =>
      simp only [assembleAux, hft] at hb hj
      exact ih cur hp.2 b hb j hj
    | some ft =>
      by_cases hbudget : budget < cur + fieldsCount (messageLine ft u)
      · simp only [assembleAux, hft, if_pos hbudget] at hj
        simp at hj
      · simp only [assembleAux, hft, if_neg hbudget, List.mem_cons] at hb hj
        rcases hj with hj | hj
        · subst hj
          exact hp.1 b (assembleAux_budgetDropped_subset budget rest _ b hb)
        · exact ih _ hp.2 b hb j hj

/-- C2 (amended): over the canonically sorted list, the running
whitespace-word count of the included message lines never exceeds the
budget, and every message cut off for budget reasons sits, in the canonical
sort, strictly before every included message.  (Messages skipped because
their timestamp fails to format are excluded wherever they occur and are
not covered by the ordering guarantee — see the counterexample.) -/
theorem assemble_respects_budget_and_order (updates : List Update) (budget : Nat) :
    (assemble budget (sortCanonical updates)).tokens ≤ budget ∧
    ∀ b ∈ (assemble budget (sortCanonical updates)).budgetDropped,
      ∀ i ∈ (assemble budget (sortCanonical updates)).included, b < i := by
  constructor
  · exact assembleAux_tokens_le budget _ 0 (Nat.zero_le _)
  · apply assembleAux_drop_before_include
    rw [List.map_reverse, List.enum_map_fst, List.pairwise_reverse]
    exact List.pairwise_lt_range _

/-- C2 witness: a concrete run (budget 8) in which the theorem's bound and
ordering conclusions are instantiated — position 0 was cut for budget,
position 1 was included, and indeed 0 < 1. -/
theorem assemble_respects_budget_and_order_witness :
    (assemble 8 (sortCanonical assembleSample)).tokens ≤ 8 ∧ (0 : Nat) < 1 :=
  ⟨(assemble_respects_budget_and_order assembleSample 8).1,
    (assemble_respects_budget_and_order assembleSample 8).2 0 (by decide) 1 (by decide)⟩

/-- C2 counterexample: in the same concrete run, a message was excluded for
budget reasons, yet not every excluded message precedes every included one
in the canonical sort: the high-priority message at sorted position 2 is
excluded (its timestamp fails to format) while position 1 is included.  The
claim's universal ordering statement over all excluded messages is
therefore false. -/
theorem assemble_excluded_order_counterexample :
    (assemble 8 (sortCanonical assembleSample)).budgetDropped ≠ [] ∧
    ¬ ∀ e ∈ (assemble 8 (sortCanonical assembleSample)).budgetDropped ++
          (assemble 8 (sortCanonical assembleSample)).formatDropped,
        ∀ i ∈ (assemble 8 (sortCanonical assembleSample)).included, e < i := by
  decide

theorem assembleAux_text_empty (budget : Nat) :
    ∀ (l : List (Nat × Update)) (cur : Nat),
      (∀ p ∈ l, ∀ ft, formatTimestamp p.2.Timestamp = some ft →
        budget < fieldsCount (messageLine ft p.2)) →
      (assembleAux budget l cur).text = "" := by
  intro l
  induction l with
  | nil => intro cur _; simp [assembleAux]
  | cons head rest ih =>
    intro cur hbig
    obtain ⟨i, u⟩ := head
    cases hft : formatTimestamp u.Timestamp with
    | none =>
      simp only [assembleAux, hft]
      exact ih cur fun p hp => hbig p (List.mem_cons_of_mem _ hp)
    | some ft =>
      have hlt : budget < cur + fieldsCount (messageLine ft u) :=
        Nat.lt_of_lt_of_le (hbig (i, u) (List.mem_cons_self _ _) ft hft)
          (Nat.le_add_left _ _)
      simp only [assembleAux, hft, if_pos hlt]

/-- C9: for a non-empty update list in which no message line fits the token
budget (every update either fails timestamp formatting or renders to a line
whose word count exceeds `maxPromptLength`), `GenerateSummary` returns the
fixed string `"No processable messages found within token limits."` with no
error, and no prompt is sent to the model. -/
theorem generateSummary_nothing_renderable (updates : List Update) (focus now : String)
    (hne : updates ≠ [])
    (hbig : ∀ u ∈ updates, ∀ ft, formatTimestamp u.Timestamp = some ft →
      maxPromptLength < fieldsCount (messageLine ft u)) :
    generateSummaryCore updates focus now =
      .done "No processable messages found within token limits." := by
  have htext : (assemble maxPromptLength (sortCanonical updates)).text = "" := by
    apply assembleAux_text_empty
    intro p hp ft hft
    apply hbig p.2 ?_ ft hft
    have hp1 : p ∈ (sortCanonical updates).enum := List.mem_reverse.mp hp
    have hp2 : p.2 ∈ sortCanonical updates := by
      rcases p with ⟨i, u⟩
      exact List.getElem?_mem (List.mk_mem_enum_iff_getElem?.mp hp1)
    exact (mem_stableSort updLess p.2 updates).mp hp2
  cases updates with
  | nil => exact absurd rfl hne
  | cons a l =>
    simp only [generateSummaryCore, List.isEmpty_cons, Bool.false_eq_true, if_false, htext,
      if_pos rfl, if_true]

/-- C9 witness: a one-element list whose only timestamp cannot be formatted
produces the nothing-renderable outcome. -/
theorem generateSummary_nothing_renderable_witness :
    generateSummaryCore unparsableSample "default" "2025-01-01 00:00 JST" =
      .done "No processable messages found within token limits." := by
  apply generateSummary_nothing_renderable
  · decide
  · intro u hu ft hft
    have hu' : u = mkSample 1 "bad-ts" "hello" := by
      simpa [unparsableSample] using hu
    rw [hu'] at hft
    have : formatTimestamp (mkSample 1 "bad-ts" "hello").Timestamp = none := by decide
    rw [this] at hft
    exact Option.noConfusion hft

/-- C10: the empty update list short-circuits `GenerateSummary`: the fixed
text `"No new updates found."` is returned with no error, before any
sorting, prompt construction, or model call. -/
theorem generateSummary_empty_input (focus now : String) :
    generateSummaryCore [] focus now = .done "No new updates found." := rfl

/-- C10 witness: the empty-input early return at concrete arguments. -/
theorem generateSummary_empty_input_witness :
    generateSummaryCore [] "support" "2025-01-01 00:00 JST" = .done "No new updates found." :=
  generateSummary_empty_input "support" "2025-01-01 00:00 JST"

/- ------------------------------------------------------------------ -/
/- Theorems: classifier (C3).                                          -/
/- ------------------------------------------------------------------ -/

/-- C3: whenever the lowered text contains any entry of the classifier's
alert-keyword list, `categorizeMessage` returns category `"alert"` with
priority `max(priority, 3)` — where `priority` is the value set by the
preceding high-urgency pass — regardless of the channel name (in
particular, a support channel name does not override it). -/
theorem alert_keywords_force_alert (channelName text : String)
    (h : alertKeywords.any (fun k => containsSubstr (toLowerGo text) k) = true) :
    categorizeMessage channelName text =
      ("alert", max (textPriority (toLowerGo text)) 3) := by
  unfold categorizeMessage
  simp only [h, if_true]
  have h3 : textPriority (toLowerGo text) = 3 ∨ textPriority (toLowerGo text) = 1 := by
    unfold textPriority
    split
    · exact Or.inl rfl
    · exact Or.inr rfl
  rcases h3 with h3 | h3 <;> rw [h3] <;> norm_num

/-- C3 witness: text containing an alert keyword in a support-named channel
is still classified `("alert", 3)`. -/
theorem alert_keywords_force_alert_witness :
    categorizeMessage "support-team" "Customer reports an outage" = ("alert", 3) := by
  have h := alert_keywords_force_alert "support-team" "Customer reports an outage" (by decide)
  rw [h]
  decide

/- ------------------------------------------------------------------ -/
/- Theorems: watermark discipline (C4, C5).                            -/
/- ------------------------------------------------------------------ -/

/-- C4: when the fetch pass for a channel ends with a Transport or
PermissionOrMissing error, the watermark update is never invoked in that
run — neither by the orchestrator body of `main.go` (the error path skips
the channel before any `updateLastFetchTime` call) nor by
`SummarizeChannel` in `slack_client.go` (which returns before its trailing
watermark update). -/
theorem watermark_blocked_on_fetch_error (env : ChanEnv) (e : FetchError)
    (channelName channelSlackID : String) (script : List ApiResponse)
    (_hkind : e = .transport ∨ e = .notFound)
    (henv : env.fetch = .error e)
    (hscript : fetchLoop channelName channelSlackID script "" [] = some (.error e)) :
    StoreAction.updatedWatermark ∉ (processChannel env).1 ∧
    StoreAction.updatedWatermark ∉
      (summarizeChannelSlack channelName channelSlackID script).2 := by
  constructor
  · obtain ⟨res, fetch, dbq, sv⟩ := env
    cases res with
    | error _ => simp [processChannel]
    | ok ids =>
      simp only at henv
      rw [henv] at *
      simp [processChannel]
  · unfold summarizeChannelSlack
    rw [hscript]
    simp

/-- C4 witness: a transport-failing fetch (`chanEnvFetchErr`, and the
one-response script `[.errOther]`) leaves both traces free of a watermark
update. -/
theorem watermark_blocked_on_fetch_error_witness :
    StoreAction.updatedWatermark ∉ (processChannel chanEnvFetchErr).1 ∧
    StoreAction.updatedWatermark ∉
      (summarizeChannelSlack "general" "C1" [.errOther]).2 :=
  watermark_blocked_on_fetch_error chanEnvFetchErr .transport "general" "C1" [.errOther]
    (Or.inl rfl) rfl rfl

/-- C5 (amended): a fetch pass that completes without error but returns
zero messages does **not** advance the watermark in that run: the
orchestrator of `main.go` invokes `updateLastFetchTime` only when
`messagesSaved > 0`, and with no fetched messages nothing is saved. -/
theorem watermark_not_advanced_on_empty_fetch (env : ChanEnv)
    (h : env.fetch = .ok []) :
    StoreAction.updatedWatermark ∉ (processChannel env).1 := by
  obtain ⟨res, fetch, dbq, sv⟩ := env
  simp only at h
  subst h
  cases res with
  | error _ => simp [processChannel]
  | ok ids =>
    cases dbq with
    | error _ => simp [processChannel]
    | ok dbUpdates => simp [processChannel]

/-- C5 counterexample: a concrete run in which resolution, fetch, and the
database query all succeed and the fetch returns zero messages — contrary
to the claim, the orchestrator performs no watermark update in this run. -/
theorem zero_message_fetch_keeps_watermark :
    StoreAction.updatedWatermark ∉ (processChannel chanEnvZeroFetch).1 := by
  decide

/-- C5 witness: the amended statement instantiated at a second concrete
zero-message run. -/
theorem watermark_not_advanced_on_empty_fetch_witness :
    StoreAction.updatedWatermark ∉ (processChannel chanEnvZeroFetchAlt).1 :=
  watermark_not_advanced_on_empty_fetch chanEnvZeroFetchAlt rfl

/- ------------------------------------------------------------------ -/
/- Theorems: rate-limit handling (C6).                                 -/
/- ------------------------------------------------------------------ -/

theorem fetchLoop_ne_rateLimited (channelName channelSlackID : String) :
    ∀ (script : List ApiResponse) (cursor : String) (acc : List Update),
      fetchLoop channelName channelSlackID script cursor acc ≠
        some (.error .rateLimited) := by
  intro script
  induction script with
  | nil => intro cursor acc; simp [fetchLoop]
  | cons r rest ih =>
    intro cursor acc
    cases r with
    | errNotFound => simp [fetchLoop]
    | errRateLimited => exact ih cursor acc
    | errOther => simp [fetchLoop]
    | page msgs hasMore nextCursor =>
      by_cases hdone : (!hasMore || nextCursor = "") = true
      · simp [fetchLoop, hdone]
      · simp only [fetchLoop, hdone, if_false]
        exact ih nextCursor _

theorem requestCursors_length_le :
    ∀ (script : List ApiResponse) (cursor : String),
      (requestCursors script cursor).length ≤ script.length := by
  intro script
  induction script with
  | nil => intro cursor; simp [requestCursors]
  | cons r rest ih =>
    intro cursor
    cases r with
    | errNotFound => simp [requestCursors]
    | errRateLimited => simpa [requestCursors] using ih cursor
    | errOther => simp [requestCursors]
    | page msgs hasMore nextCursor =>
      by_cases hdone : (!hasMore || nextCursor = "") = true
      · simp [requestCursors, hdone]
      · simp only [requestCursors, hdone, if_false, List.length_cons]
        exact Nat.succ_le_succ (ih nextCursor)

theorem requestCursors_head (script : List ApiResponse) (cursor : String)
    (h : script ≠ []) : (requestCursors script cursor).get? 0 = some cursor := by
  cases script with
  | nil => exact absurd rfl h
  | cons r rest =>
    cases r with
    | errNotFound => simp [requestCursors]
    | errRateLimited => simp [requestCursors]
    | errOther => simp [requestCursors]
    | page msgs hasMore nextCursor =>
      by_cases hdone : (!hasMore || nextCursor = "") = true
      · simp [requestCursors, hdone]
      · simp [requestCursors, hdone]

theorem requestCursors_retry_same_cursor :
    ∀ (script : List ApiResponse) (cursor : String) (i : Nat) (c : String),
      script.get? i = some .errRateLimited →
      (requestCursors script cursor).get? i = some c →
      i + 1 < script.length →
      (requestCursors script cursor).get? (i + 1) = some c := by
  intro script
  induction script with
  | nil => intro cursor i c h; simp at h
  | cons r rest ih =>
    intro cursor i c hscript hcur hlen
    cases i with
    | zero =>
      have hr : r = .errRateLimited := by simpa using hscript
      subst hr
      have hc : c = cursor := by simpa [requestCursors] using hcur.symm
      subst hc
      have hrest : rest ≠ [] := by
        intro hnil
        rw [hnil] at hlen
        simp at hlen
      simpa [requestCursors] using requestCursors_head rest c hrest
    | succ j =>
      have hscript' : rest.get? j = some .errRateLimited := by simpa using hscript
      have hlen' : j + 1 < rest.length := by simpa using hlen
      cases r with
      | errNotFound => simp [requestCursors] at hcur
      | errRateLimited =>
        have hcur' : (requestCursors rest cursor).get? j = some c := by
          simpa [requestCursors] using hcur
        simpa [requestCursors] using ih cursor j c hscript' hcur' hlen'
      | errOther => simp [requestCursors] at hcur
      | page msgs hasMore nextCursor =>
        by_cases hdone : (!hasMore || nextCursor = "") = true
        · simp [requestCursors, hdone] at hcur
        · have hcur' : (requestCursors rest nextCursor).get? j = some c := by
            simpa [requestCursors, hdone] using hcur
          simpa [requestCursors, hdone] using ih nextCursor j c hscript' hcur' hlen'

/-- C6: during one channel's history fetch, a rate-limit response never
reaches the caller as an error (`RateLimited` is absorbed by the retry),
the loop issues at most one request per remote response (so the retrying is
bounded by the responses the remote actually sends — one retry per
encountered rate-limit), and the request immediately following a rate-limit
response carries the same cursor, i.e. the same page is retried. -/
theorem rate_limit_absorbed (channelName channelSlackID cursor : String)
    (script : List ApiResponse) (acc : List Update) :
    fetchLoop channelName channelSlackID script cursor acc ≠
      some (.error .rateLimited) ∧
    (requestCursors script cursor).length ≤ script.length ∧
    ∀ (i : Nat) (c : String), script.get? i = some .errRateLimited →
      (requestCursors script cursor).get? i = some c →
      i + 1 < script.length →
      (requestCursors script cursor).get? (i + 1) = some c :=
  ⟨fetchLoop_ne_rateLimited channelName channelSlackID script cursor acc,
    requestCursors_length_le script cursor,
    fun i c => requestCursors_retry_same_cursor script cursor i c⟩

/-- C6 witness: with the script `[rate-limit, empty final page]`, the fetch
returns no rate-limit error and the second request repeats the first
request's (empty) cursor. -/
theorem rate_limit_absorbed_witness :
    fetchLoop "general" "C1" rateLimitScript "" [] ≠ some (.error .rateLimited) ∧
    (requestCursors rateLimitScript "").get? 1 = some "" :=
  ⟨(rate_limit_absorbed "general" "C1" "" rateLimitScript []).1,
    (rate_limit_absorbed "general" "C1" "" rateLimitScript []).2.2 0 ""
      (by decide) (by decide) (by decide)⟩

/- ------------------------------------------------------------------ -/
/- Theorems: channel resolution (C7).                                  -/
/- ------------------------------------------------------------------ -/

/-- C7: a channel resolved through the remote directory (cache miss, then a
successful remote match) still resolves when the subsequent cache upsert
fails: `getChannelID` returns the remote id with the sentinel local id 0
and no error. -/
theorem resolver_degrades_on_upsert_failure (env : ResolveEnv) (name slackID : String)
    (hdb : env.dbPresent = true)
    (hmiss : env.lookup = .noRows)
    (hscan : scanPages name env.pages = .ok (some slackID))
    (hup : env.upsert = .error ()) :
    resolveChannel env name = .ok (slackID, 0) := by
  unfold resolveChannel resolveRemote
  rw [hdb, hmiss, hscan, hup]
  simp

/-- C7 witness: the spec §8 scenario — no cached row, no match on page 1, a
match on page 2, failing upsert — resolves to `("C42", 0)` with no error. -/
theorem resolver_degrades_on_upsert_failure_witness :
    resolveChannel resolveEnvSample "support-tier1" = .ok ("C42", 0) :=
  resolver_degrades_on_upsert_failure resolveEnvSample "support-tier1" "C42"
    rfl rfl (by decide) rfl

/- ------------------------------------------------------------------ -/
/- Theorems: raw-message filtering (C8).                               -/
/- ------------------------------------------------------------------ -/

/-- C8 (code bug): a thread reply that *is* broadcast to the channel
(`subtype = "thread_broadcast"`, human sender) is nevertheless skipped by
the fetch loop of `SummarizeChannel`: its first filter rejects every
non-empty subtype, making the `thread_broadcast` carve-out of the second
filter unreachable.  The spec-modelled predicate keeps the message; the
page processor emits nothing for it. -/
theorem thread_broadcast_reply_skipped :
    skipMessage broadcastReply = true ∧
    specSkipMessage broadcastReply = false ∧
    processPage "general" "C1" [broadcastReply] = [] := by
  decide
